import Mathlib

/-!
Verification of the slider, UI-utility and page-transition controllers of
the feelsincubator repository (src/js/slider.js, utils.js,
page-transition.js), as a shallow embedding: each browser event handler
becomes a pure state-transition function on an explicit state record.
Pixel quantities are rationals (JS numbers on the values that occur here),
indices are naturals.
-/

/-- State of the slider controller (module-level variables of slider.js,
together with the observable bits of the track element that the code
mutates: the `is-dragging` class, the inline `transform` style, and the
number of pending capture-phase click suppressors attached by onDragEnd). -/
structure SliderState where
  numCards : Nat
  cardWidth : ℚ
  gap : ℚ
  currentIndex : Nat
  maxIndex : Nat
  isDragging : Bool
  startX : ℚ
  currentX : ℚ
  translateX : ℚ
  trackDraggingClass : Bool
  trackTransform : Option ℚ
  clickSuppressors : Nat
deriving Repr, DecidableEq

/-- Initial state of slider.js after the variable declarations (lines
59-68): cardWidth 0, gap 24, indices 0, no drag in progress.  `n` is the
number of `.project-card` children found in the track. -/
def initState (n : Nat) : SliderState :=
  { numCards := n, cardWidth := 0, gap := 24, currentIndex := 0, maxIndex := 0
  , isDragging := false, startX := 0, currentX := 0, translateX := 0
  , trackDraggingClass := false, trackTransform := none, clickSuppressors := 0 }

/-- updatePosition (slider.js lines 115-132): recomputes
`translateX = -currentIndex * (cardWidth + gap)`, removes the
`is-dragging` class when animating (adds it otherwise), and writes the
transform style. -/
def updatePosition (animate : Bool) (s : SliderState) : SliderState :=
  let tx : ℚ := -(s.currentIndex : ℚ) * (s.cardWidth + s.gap)
  { s with translateX := tx
         , trackDraggingClass := !animate
         , trackTransform := some tx }

/-- goToPrev (slider.js lines 146-151): decrement the index and re-apply
the position (animated) only when not already at index 0. -/
def goToPrev (s : SliderState) : SliderState :=
  if 0 < s.currentIndex then
    updatePosition true { s with currentIndex := s.currentIndex - 1 }
  else s

/-- goToNext (slider.js lines 157-162): increment the index and re-apply
the position (animated) only when not already at maxIndex. -/
def goToNext (s : SliderState) : SliderState :=
  if s.currentIndex < s.maxIndex then
    updatePosition true { s with currentIndex := s.currentIndex + 1 }
  else s

/-- The effective gap computed at slider.js line 89,
`gap = parseInt(style.gap) || 24`: `none` models a NaN parse result; a
parse result of 0 is falsy in JS, so both fall back to 24. -/
def effGap : Option Int → ℚ
  | some n => if n = 0 then 24 else (n : ℚ)
  | none => 24

/-- calculateDimensions (slider.js lines 77-104).  Inputs read from the
DOM: the first card's offsetWidth, the parsed CSS gap, and the parent
container's offsetWidth.  Returns unchanged if there are no cards;
otherwise stores the new dimensions, sets
`maxIndex = max(0, numCards - floor(containerWidth / (cardWidth + gap)))`,
and, when the current index now exceeds the new maximum, clamps it and
re-applies the position without animation. -/
def calculateDimensions (cardOffsetWidth : ℚ) (gapParsed : Option Int)
    (containerWidth : ℚ) (s : SliderState) : SliderState :=
  if s.numCards = 0 then s
  else
    let cw := cardOffsetWidth
    let g := effGap gapParsed
    let visibleCards : Int := ⌊containerWidth / (cw + g)⌋
    let maxIdx : Nat := (max 0 ((s.numCards : Int) - visibleCards)).toNat
    let s1 := { s with cardWidth := cw, gap := g, maxIndex := maxIdx }
    if maxIdx < s1.currentIndex then
      updatePosition false { s1 with currentIndex := maxIdx }
    else s1

/-- onDragStart (slider.js lines 221-233): enter the dragging state,
record the pointer's x coordinate, and add the `is-dragging` class. -/
def onDragStart (x : ℚ) (s : SliderState) : SliderState :=
  { s with isDragging := true, startX := x, currentX := x
         , trackDraggingClass := true }

/-- onDragMove (slider.js lines 241-259): when dragging, render the track
at the committed offset plus the live delta and record the new pointer
position; otherwise do nothing. -/
def onDragMove (x : ℚ) (s : SliderState) : SliderState :=
  if s.isDragging then
    { s with trackTransform := some (s.translateX + (x - s.startX))
           , currentX := x }
  else s

/-- onDragEnd (slider.js lines 268-305): when dragging, leave the dragging
state, compare the net delta `currentX - startX` against the
`cardWidth / 4` threshold to move at most one index (bounds-checked),
re-apply the position with animation, and, when the absolute delta exceeds
10 pixels, attach a one-shot capture-phase click suppressor to the track. -/
def onDragEnd (s : SliderState) : SliderState :=
  if s.isDragging then
    let s0 := { s with isDragging := false, trackDraggingClass := false }
    let diff := s.currentX - s.startX
    let threshold := s.cardWidth / 4
    let s1 :=
      if diff > threshold ∧ 0 < s0.currentIndex then
        { s0 with currentIndex := s0.currentIndex - 1 }
      else if diff < -threshold ∧ s0.currentIndex < s0.maxIndex then
        { s0 with currentIndex := s0.currentIndex + 1 }
      else s0
    let s2 := updatePosition true s1
    if |diff| > 10 then
      { s2 with clickSuppressors := s2.clickSuppressors + 1 }
    else s2
  else s

/-- A click event dispatched on the track: every pending suppressor fires
in the capture phase (each removes itself after firing, slider.js lines
296-303), so the click is cancelled exactly when at least one suppressor
is attached, and afterwards none remain.  Returns (suppressed, new
state). -/
def onTrackClick (s : SliderState) : Bool × SliderState :=
  (decide (0 < s.clickSuppressors), { s with clickSuppressors := 0 })

/-- A discrete navigation request: a prev/next button click, or an
ArrowLeft/ArrowRight keydown while the slider section is visible — both
paths call goToPrev / goToNext (slider.js lines 170-204). -/
inductive NavOp where
  | prev
  | next
deriving Repr, DecidableEq

def applyNav : NavOp → SliderState → SliderState
  | NavOp.prev => goToPrev
  | NavOp.next => goToNext

/-- A sequence of prev/next navigation operations applied in order. -/
def navSeq (ops : List NavOp) (s : SliderState) : SliderState :=
  ops.foldl (fun t op => applyNav op t) s

/-- The spec's running example (spec.md section 8): six cards, card width
100, gap 24, container width 380 (three cards visible), then one next
call, landing at index 1. -/
def exS : SliderState :=
  goToNext (calculateDimensions 100 (some 24) 380 (initState 6))

/-- The state after a further recalculation that shrinks the cards to
width 80 in a 312 pixel container (three visible, maxIndex still 3, no
clamping) — used to examine the translateX invariant across a
dimension change. -/
def staleR : SliderState := calculateDimensions 80 (some 24) 312 exS

/-- Concrete mid-drag state for drag-end witnesses: six cards, card width
100, maxIndex 3, index 1, pointer moved from 0 to 50. -/
def dragS : SliderState :=
  { initState 6 with
      isDragging := true, cardWidth := 100,
      currentIndex := 1, maxIndex := 3, translateX := -124,
      startX := 0, currentX := 50, trackDraggingClass := true }

/-! ## Modal controller (utils.js, initModals / closeAllModals)

The document is modelled by the id-bearing modal elements (each with its
`is-active` flag), the presence and `is-active` flag of the shared
`.overlay` element, and the body's inline `overflow` style. -/

structure ModalDom where
  modals : List (String × Bool)
  overlayPresent : Bool
  overlayActive : Bool
  bodyOverflow : String
deriving Repr, DecidableEq

/-- getElementById followed by classList.add: activates the first element
carrying the id, leaves everything else alone. -/
def activateFirst : List (String × Bool) → String → List (String × Bool)
  | [], _ => []
  | p :: rest, i => if p.1 = i then (p.1, true) :: rest else p :: activateFirst rest i

/-- Whether some element with this id exists (getElementById succeeds). -/
def hasId (l : List (String × Bool)) (i : String) : Bool :=
  l.any (fun p => p.1 = i)

/-- closeAllModals (utils.js lines 163-178): removes `is-active` from
every active modal, deactivates the overlay if it was active, and clears
the body overflow style. -/
def closeAllModals (d : ModalDom) : ModalDom :=
  { d with modals := d.modals.map (fun p => (p.1, false))
         , overlayActive := false
         , bodyOverflow := "" }

/-- The delegated document click handler of initModals (utils.js lines
118-146).  `openTrigger` is the value of `data-modal-open` when
`e.target.closest` found an open trigger (checked first; the handler
returns from that branch even when the id resolves to nothing);
`closeTrigger` and `onOverlay` record whether a close trigger was found
or the click landed directly on the overlay. -/
def modalClick (openTrigger : Option String) (closeTrigger : Bool)
    (onOverlay : Bool) (d : ModalDom) : ModalDom :=
  match openTrigger with
  | some modalId =>
    if hasId d.modals modalId then
      { d with modals := activateFirst d.modals modalId
             , overlayActive := if d.overlayPresent then true else d.overlayActive
             , bodyOverflow := "hidden" }
    else d
  | none =>
    if closeTrigger || onOverlay then closeAllModals d else d

/-- The document keydown handler of initModals (utils.js lines 152-156):
Escape closes all modals, any other key does nothing. -/
def modalKeydown (key : String) (d : ModalDom) : ModalDom :=
  if key = "Escape" then closeAllModals d else d

/-- Concrete document for modal witnesses: two modals (one already
active), the shared overlay present and active, scroll locked. -/
def twoModalDom : ModalDom :=
  { modals := [("contact", true), ("about", false)]
  , overlayPresent := true, overlayActive := true, bodyOverflow := "hidden" }

/-! ## Smooth-scroll controller (utils.js, initSmoothScroll) -/

/-- Observable outcome of the delegated anchor click handler: whether
preventDefault ran, the y position passed to window.scrollTo (if any),
and the hash pushed via history.pushState (if any). -/
structure ScrollOutcome where
  prevented : Bool
  scrolledTo : Option ℚ
  pushedHash : Option String
deriving Repr, DecidableEq

/-- The click handler body of initSmoothScroll (utils.js lines 196-234),
reached when `e.target.closest` matched an anchor whose href starts with
a hash.  `href` is the attribute value; `targetTop` is
`target.getBoundingClientRect().top` when `document.querySelector(href)`
resolves, `none` otherwise; `headerHeight` is the `.site-header` element's
offsetHeight when the header exists (the source's `|| 0` maps a missing
header, and a zero height, to 0). -/
def smoothScrollClick (href : String) (targetTop : Option ℚ) (scrollY : ℚ)
    (headerHeight : Option ℚ) : ScrollOutcome :=
  if href = "#" then { prevented := false, scrolledTo := none, pushedHash := none }
  else
    match targetTop with
    | none => { prevented := false, scrolledTo := none, pushedHash := none }
    | some top =>
      let hh : ℚ := headerHeight.getD 0
      { prevented := true
      , scrolledTo := some (top + scrollY - hh)
      , pushedHash := some href }

/-! ## Page-transition controller (page-transition.js)

State: the animation-state marker classes on the body (`is-glitching`,
`is-leaving`) and on the overlay (`glitch-active`, `glitch-exit`),
the url assigned to window.location.href (if any), and the pending
450ms navigation timer scheduled by navigateTo (if any). -/

structure TransitionState where
  bodyGlitching : Bool
  bodyLeaving : Bool
  overlayGlitchActive : Bool
  overlayGlitchExit : Bool
  navigatedTo : Option String
  pendingNavTimer : Option String
deriving Repr, DecidableEq

/-- The transition state of a freshly loaded document: no marker class
applied, no navigation performed or scheduled. -/
def cleanT : TransitionState :=
  { bodyGlitching := false, bodyLeaving := false
  , overlayGlitchActive := false, overlayGlitchExit := false
  , navigatedTo := none, pendingNavTimer := none }

/-- The synchronous part of init (page-transition.js lines 89-125):
under reduced motion the whole animation block is skipped (no marker
class, no timer); otherwise `is-glitching` goes on the body and the
overlay phases run on timers (modelled only as far as the claims need:
the immediate marker). -/
def entranceInit (reduced : Bool) (t : TransitionState) : TransitionState :=
  if reduced then t else { t with bodyGlitching := true }

/-- navigateTo (page-transition.js lines 181-201): under reduced motion
the location is assigned immediately and the function returns — no marker
class, no timer.  Otherwise `is-leaving` goes on the body, `glitch-active`
on the overlay when the overlay element exists, and the navigation is
scheduled on a 450ms timer. -/
def navigateTo (reduced : Bool) (transitionPresent : Bool) (url : String)
    (t : TransitionState) : TransitionState :=
  if reduced then { t with navigatedTo := some url }
  else
    let t1 := { t with bodyLeaving := true }
    let t2 := if transitionPresent then { t1 with overlayGlitchActive := true } else t1
    { t2 with pendingNavTimer := some url }

/-- The popstate handler (page-transition.js lines 212-220).  Note: the
source handler never consults prefersReducedMotion — it adds
`is-glitching` to the body, and `glitch-active` to the overlay when the
overlay element exists, unconditionally. -/
def popstateHandler (transitionPresent : Bool) (t : TransitionState) : TransitionState :=
  let t1 := { t with bodyGlitching := true }
  if transitionPresent then { t1 with overlayGlitchActive := true } else t1

/-! ## Theorems -/

lemma applyNav_bound (op : NavOp) (s : SliderState)
    (h : s.currentIndex ≤ s.maxIndex) :
    (applyNav op s).currentIndex ≤ (applyNav op s).maxIndex := by
  cases op <;> simp only [applyNav, goToPrev, goToNext, updatePosition] <;>
    split <;> simp_all <;> omega

lemma navSeq_bound (ops : List NavOp) (s : SliderState)
    (h : s.currentIndex ≤ s.maxIndex) :
    (navSeq ops s).currentIndex ≤ (navSeq ops s).maxIndex := by
  induction ops generalizing s with
  | nil => simpa [navSeq] using h
  | cons op rest ih =>
      simp only [navSeq, List.foldl_cons] at *
      exact ih (applyNav op s) (applyNav_bound op s h)

/-- Claim C1: for every sequence of prev/next navigation operations from a
state with currentIndex in bounds, currentIndex never leaves
[0, maxIndex]; goToNext increments by exactly one only when
currentIndex < maxIndex, goToPrev decrements by exactly one only when
currentIndex > 0, and each is a no-op at its boundary. -/
theorem slider_nav_invariant (s : SliderState) (ops : List NavOp)
    (h : s.currentIndex ≤ s.maxIndex) :
    (navSeq ops s).currentIndex ≤ (navSeq ops s).maxIndex
    ∧ (s.currentIndex < s.maxIndex → (goToNext s).currentIndex = s.currentIndex + 1)
    ∧ (s.currentIndex = s.maxIndex → goToNext s = s)
    ∧ (0 < s.currentIndex → (goToPrev s).currentIndex = s.currentIndex - 1)
    ∧ (s.currentIndex = 0 → goToPrev s = s) := by
  refine ⟨navSeq_bound ops s h, ?_, ?_, ?_, ?_⟩
  · intro hlt
    simp [goToNext, updatePosition, hlt]
  · intro heq
    simp [goToNext, heq]
  · intro hpos
    simp [goToPrev, updatePosition, hpos]
  · intro h0
    simp [goToPrev, h0]

theorem slider_nav_invariant_witness :
    exS.currentIndex ≤ exS.maxIndex
    ∧ ((navSeq [NavOp.next, NavOp.next, NavOp.next] exS).currentIndex
          ≤ (navSeq [NavOp.next, NavOp.next, NavOp.next] exS).maxIndex
      ∧ (exS.currentIndex < exS.maxIndex →
          (goToNext exS).currentIndex = exS.currentIndex + 1)
      ∧ (exS.currentIndex = exS.maxIndex → goToNext exS = exS)
      ∧ (0 < exS.currentIndex → (goToPrev exS).currentIndex = exS.currentIndex - 1)
      ∧ (exS.currentIndex = 0 → goToPrev exS = exS)) :=
  ⟨by norm_num [exS, calculateDimensions, initState, effGap, updatePosition, goToNext],
   slider_nav_invariant exS [NavOp.next, NavOp.next, NavOp.next]
     (by norm_num [exS, calculateDimensions, initState, effGap, updatePosition, goToNext])⟩

/-- Claim C2: when a drag ends while dragging, with net delta
diff = currentX - startX: diff above cardWidth/4 away from index 0
decrements the index by one, diff below -cardWidth/4 away from maxIndex
increments it by one, every other case leaves it unchanged, and in all
cases the position is re-applied with animation enabled (the is-dragging
class is removed and the snap transform written). -/
theorem dragEnd_spec (s : SliderState) (h : s.isDragging = true)
    (hcw : 0 ≤ s.cardWidth) :
    (s.currentX - s.startX > s.cardWidth / 4 → 0 < s.currentIndex →
        (onDragEnd s).currentIndex = s.currentIndex - 1)
    ∧ (s.currentX - s.startX < -(s.cardWidth / 4) → s.currentIndex < s.maxIndex →
        (onDragEnd s).currentIndex = s.currentIndex + 1)
    ∧ (¬(s.currentX - s.startX > s.cardWidth / 4 ∧ 0 < s.currentIndex) →
       ¬(s.currentX - s.startX < -(s.cardWidth / 4) ∧ s.currentIndex < s.maxIndex) →
        (onDragEnd s).currentIndex = s.currentIndex)
    ∧ (onDragEnd s).isDragging = false
    ∧ (onDragEnd s).trackDraggingClass = false
    ∧ (onDragEnd s).trackTransform
        = some (-(((onDragEnd s).currentIndex : ℚ)) * (s.cardWidth + s.gap)) := by
  have ht : (0:ℚ) ≤ s.cardWidth / 4 := by positivity
  simp only [onDragEnd, h, if_true, updatePosition]
  split_ifs with h1 h2 h3 h4 h5 <;>
    refine ⟨?_, ?_, ?_, ?_, ?_, ?_⟩ <;> simp_all <;> try omega
  all_goals intros; first | rfl | omega | linarith

theorem dragEnd_spec_witness :
    dragS.isDragging = true
    ∧ (0 ≤ dragS.cardWidth)
    ∧ ((dragS.currentX - dragS.startX > dragS.cardWidth / 4 → 0 < dragS.currentIndex →
          (onDragEnd dragS).currentIndex = dragS.currentIndex - 1)
      ∧ (dragS.currentX - dragS.startX < -(dragS.cardWidth / 4) →
          dragS.currentIndex < dragS.maxIndex →
          (onDragEnd dragS).currentIndex = dragS.currentIndex + 1)
      ∧ (¬(dragS.currentX - dragS.startX > dragS.cardWidth / 4 ∧ 0 < dragS.currentIndex) →
         ¬(dragS.currentX - dragS.startX < -(dragS.cardWidth / 4)
            ∧ dragS.currentIndex < dragS.maxIndex) →
          (onDragEnd dragS).currentIndex = dragS.currentIndex)
      ∧ (onDragEnd dragS).isDragging = false
      ∧ (onDragEnd dragS).trackDraggingClass = false
      ∧ (onDragEnd dragS).trackTransform
          = some (-(((onDragEnd dragS).currentIndex : ℚ)) * (dragS.cardWidth + dragS.gap))) :=
  ⟨rfl, by norm_num [dragS, initState],
   dragEnd_spec dragS rfl (by norm_num [dragS, initState])⟩

/-- Claim C3: dimension recalculation sets
maxIndex = max(0, totalCards - floor(containerWidth / (cardWidth + gap)));
when the existing currentIndex exceeds the new maxIndex it is clamped and
the offset -maxIndex*(cardWidth+gap) is applied without animation; and in
the 6-cards / 3-visible example maxIndex is 3 and three next calls from
index 1 land at 2, 3, 3. -/
theorem calculateDimensions_spec (s : SliderState) (cw c : ℚ) (gp : Option Int)
    (h : s.numCards ≠ 0) :
    (calculateDimensions cw gp c s).maxIndex
        = (max 0 ((s.numCards : Int) - ⌊c / (cw + effGap gp)⌋)).toNat
    ∧ ((calculateDimensions cw gp c s).maxIndex < s.currentIndex →
        (calculateDimensions cw gp c s).currentIndex
            = (calculateDimensions cw gp c s).maxIndex
        ∧ (calculateDimensions cw gp c s).translateX
            = -(((calculateDimensions cw gp c s).maxIndex : ℚ)) * (cw + effGap gp)
        ∧ (calculateDimensions cw gp c s).trackDraggingClass = true
        ∧ (calculateDimensions cw gp c s).trackTransform
            = some (calculateDimensions cw gp c s).translateX)
    ∧ (calculateDimensions 100 (some 24) 380 (initState 6)).maxIndex = 3
    ∧ exS.currentIndex = 1
    ∧ (goToNext exS).currentIndex = 2
    ∧ (goToNext (goToNext exS)).currentIndex = 3
    ∧ (goToNext (goToNext (goToNext exS))).currentIndex = 3 := by
  refine ⟨?_, ?_, ?_, ?_, ?_, ?_, ?_⟩
  · simp only [calculateDimensions, h, if_false, updatePosition]
    split_ifs <;> rfl
  · simp only [calculateDimensions, h, if_false, updatePosition]
    split_ifs with h1 <;> intro h2
    · exact ⟨rfl, rfl, rfl, rfl⟩
    · simp_all
  · norm_num [calculateDimensions, initState, effGap, updatePosition]
    rfl
  · norm_num [exS, calculateDimensions, initState, effGap, updatePosition, goToNext]
  · norm_num [exS, calculateDimensions, initState, effGap, updatePosition, goToNext]
  · norm_num [exS, calculateDimensions, initState, effGap, updatePosition, goToNext]
  · norm_num [exS, calculateDimensions, initState, effGap, updatePosition, goToNext]

theorem calculateDimensions_spec_witness :
    (initState 6).numCards ≠ 0
    ∧ ((calculateDimensions 100 (some 24) 380 (initState 6)).maxIndex
          = (max 0 (((initState 6).numCards : Int)
              - ⌊(380 : ℚ) / (100 + effGap (some 24))⌋)).toNat
      ∧ ((calculateDimensions 100 (some 24) 380 (initState 6)).maxIndex
            < (initState 6).currentIndex →
          (calculateDimensions 100 (some 24) 380 (initState 6)).currentIndex
              = (calculateDimensions 100 (some 24) 380 (initState 6)).maxIndex
          ∧ (calculateDimensions 100 (some 24) 380 (initState 6)).translateX
              = -(((calculateDimensions 100 (some 24) 380 (initState 6)).maxIndex : ℚ))
                * (100 + effGap (some 24))
          ∧ (calculateDimensions 100 (some 24) 380 (initState 6)).trackDraggingClass = true
          ∧ (calculateDimensions 100 (some 24) 380 (initState 6)).trackTransform
              = some (calculateDimensions 100 (some 24) 380 (initState 6)).translateX)
      ∧ (calculateDimensions 100 (some 24) 380 (initState 6)).maxIndex = 3
      ∧ exS.currentIndex = 1
      ∧ (goToNext exS).currentIndex = 2
      ∧ (goToNext (goToNext exS)).currentIndex = 3
      ∧ (goToNext (goToNext (goToNext exS))).currentIndex = 3) :=
  ⟨by norm_num [initState],
   calculateDimensions_spec (initState 6) 100 380 (some 24) (by norm_num [initState])⟩

/-- Claim C4: a click on an open trigger whose target id resolves
activates that modal, the shared overlay and the scroll lock; every close
action (close trigger click, direct overlay click, Escape keydown)
deactivates all currently active modals and the overlay and restores body
scroll, however many modals were active. -/
theorem modal_open_close_spec (d : ModalDom) (i : String)
    (hid : hasId d.modals i = true) (hov : d.overlayPresent = true) :
    (∀ ct ov : Bool,
        (i, true) ∈ (modalClick (some i) ct ov d).modals
        ∧ (modalClick (some i) ct ov d).overlayActive = true
        ∧ (modalClick (some i) ct ov d).bodyOverflow = "hidden")
    ∧ ((∀ p ∈ (modalClick none true false d).modals, p.2 = false)
        ∧ (modalClick none true false d).overlayActive = false
        ∧ (modalClick none true false d).bodyOverflow = "")
    ∧ ((∀ p ∈ (modalClick none false true d).modals, p.2 = false)
        ∧ (modalClick none false true d).overlayActive = false
        ∧ (modalClick none false true d).bodyOverflow = "")
    ∧ ((∀ p ∈ (modalKeydown "Escape" d).modals, p.2 = false)
        ∧ (modalKeydown "Escape" d).overlayActive = false
        ∧ (modalKeydown "Escape" d).bodyOverflow = "") := by
  have hact : ∀ (l : List (String × Bool)), hasId l i = true →
      (i, true) ∈ activateFirst l i := by
    intro l
    induction l with
    | nil => simp [hasId]
    | cons p rest ih =>
        intro hl
        by_cases hp : p.1 = i
        · simp [activateFirst, hp]
        · simp only [activateFirst, if_neg hp]
          refine List.mem_cons_of_mem p (ih ?_)
          simpa [hasId, hp] using hl
  have hclose : ∀ p ∈ (closeAllModals d).modals, p.2 = false := by
    intro p hp
    simp only [closeAllModals, List.mem_map] at hp
    obtain ⟨q, _, hq⟩ := hp
    simp [← hq]
  have hc1 : modalClick none true false d = closeAllModals d := by
    simp [modalClick]
  have hc2 : modalClick none false true d = closeAllModals d := by
    simp [modalClick]
  have hk : modalKeydown "Escape" d = closeAllModals d := by
    simp [modalKeydown]
  refine ⟨?_, ?_, ?_, ?_⟩
  · intro ct ov
    refine ⟨?_, ?_, ?_⟩
    · simp only [modalClick, hid, if_true]
      exact hact d.modals hid
    · simp [modalClick, hid, hov]
    · simp [modalClick, hid]
  · rw [hc1]
    exact ⟨hclose, rfl, rfl⟩
  · rw [hc2]
    exact ⟨hclose, rfl, rfl⟩
  · rw [hk]
    exact ⟨hclose, rfl, rfl⟩

theorem modal_open_close_spec_witness :
    hasId twoModalDom.modals "about" = true
    ∧ twoModalDom.overlayPresent = true
    ∧ ((∀ ct ov : Bool,
          ("about", true) ∈ (modalClick (some "about") ct ov twoModalDom).modals
          ∧ (modalClick (some "about") ct ov twoModalDom).overlayActive = true
          ∧ (modalClick (some "about") ct ov twoModalDom).bodyOverflow = "hidden")
      ∧ ((∀ p ∈ (modalClick none true false twoModalDom).modals, p.2 = false)
          ∧ (modalClick none true false twoModalDom).overlayActive = false
          ∧ (modalClick none true false twoModalDom).bodyOverflow = "")
      ∧ ((∀ p ∈ (modalClick none false true twoModalDom).modals, p.2 = false)
          ∧ (modalClick none false true twoModalDom).overlayActive = false
          ∧ (modalClick none false true twoModalDom).bodyOverflow = "")
      ∧ ((∀ p ∈ (modalKeydown "Escape" twoModalDom).modals, p.2 = false)
          ∧ (modalKeydown "Escape" twoModalDom).overlayActive = false
          ∧ (modalKeydown "Escape" twoModalDom).bodyOverflow = "")) :=
  ⟨by decide, rfl,
   modal_open_close_spec twoModalDom "about" (by decide) rfl⟩

/-- Claim C5 (code evaluated at the failing input): with reduced motion
requested, link-intercepted navigation via navigateTo is indeed immediate
and synchronous with no marker class and no timer, and entrance
initialization adds no marker; but the popstate handler — which never
consults prefersReducedMotion in the source — still adds the is-glitching
marker to the body and glitch-active to the overlay. -/
theorem popstate_ignores_reduced_motion :
    navigateTo true true "about.html" cleanT
        = { cleanT with navigatedTo := some "about.html" }
    ∧ entranceInit true cleanT = cleanT
    ∧ (popstateHandler true cleanT).bodyGlitching = true
    ∧ (popstateHandler true cleanT).overlayGlitchActive = true := by
  refine ⟨rfl, rfl, rfl, rfl⟩

/-- Claim C6 counterexample: starting from the spec's six-card example at
index 1 (where the invariant holds), a dimension recalculation to card
width 80 in a 312 pixel container changes cardWidth without clamping the
index, and the resulting non-dragging state violates
translateX = -currentIndex * (cardWidth + gap). -/
theorem translateX_inv_counterexample :
    exS.isDragging = false
    ∧ exS.translateX = -(exS.currentIndex : ℚ) * (exS.cardWidth + exS.gap)
    ∧ staleR.isDragging = false
    ∧ staleR.translateX ≠ -(staleR.currentIndex : ℚ) * (staleR.cardWidth + staleR.gap) := by
  refine ⟨?_, ?_, ?_, ?_⟩ <;>
    norm_num [staleR, exS, calculateDimensions, initState, effGap, updatePosition, goToNext]

/-- Claim C6 as amended: the relation
translateX = -currentIndex * (cardWidth + gap) is preserved by every
prev/next navigation, by drag end, and by a dimension recalculation that
clamps the index or that leaves cardWidth + gap unchanged; a
recalculation that changes cardWidth + gap without clamping can leave
translateX stale (see the counterexample). -/
theorem translateX_inv_amended (s : SliderState)
    (hInv : s.translateX = -(s.currentIndex : ℚ) * (s.cardWidth + s.gap)) :
    (∀ op : NavOp, (applyNav op s).translateX
        = -((applyNav op s).currentIndex : ℚ)
          * ((applyNav op s).cardWidth + (applyNav op s).gap))
    ∧ ((onDragEnd s).translateX
        = -((onDragEnd s).currentIndex : ℚ)
          * ((onDragEnd s).cardWidth + (onDragEnd s).gap))
    ∧ (∀ (cw c : ℚ) (gp : Option Int),
        ((calculateDimensions cw gp c s).maxIndex < s.currentIndex
          ∨ cw + effGap gp = s.cardWidth + s.gap) →
        (calculateDimensions cw gp c s).translateX
          = -((calculateDimensions cw gp c s).currentIndex : ℚ)
            * ((calculateDimensions cw gp c s).cardWidth
               + (calculateDimensions cw gp c s).gap)) := by
  refine ⟨?_, ?_, ?_⟩
  · intro op
    cases op <;> simp only [applyNav, goToPrev, goToNext, updatePosition] <;>
      split_ifs <;> simp_all
  · by_cases h : s.isDragging
    · simp only [onDragEnd, h, if_true, updatePosition]
      split_ifs <;> rfl
    · simp only [onDragEnd, h, if_false]
      exact hInv
  · intro cw c gp hcase
    by_cases h0 : s.numCards = 0
    · simp only [calculateDimensions, h0, if_true]
      exact hInv
    · rcases hcase with hclamp | hsame
      · simp only [calculateDimensions, h0, if_false] at hclamp ⊢
        split_ifs at hclamp ⊢ with h1
        · simp only [updatePosition]
        · exact absurd hclamp h1
      · simp only [calculateDimensions, h0, if_false] at hsame ⊢
        split_ifs with h1
        · simp only [updatePosition]
        · simp only [hInv, hsame]

theorem translateX_inv_amended_witness :
    exS.translateX = -(exS.currentIndex : ℚ) * (exS.cardWidth + exS.gap)
    ∧ ((∀ op : NavOp, (applyNav op exS).translateX
          = -((applyNav op exS).currentIndex : ℚ)
            * ((applyNav op exS).cardWidth + (applyNav op exS).gap))
      ∧ ((onDragEnd exS).translateX
          = -((onDragEnd exS).currentIndex : ℚ)
            * ((onDragEnd exS).cardWidth + (onDragEnd exS).gap))
      ∧ (∀ (cw c : ℚ) (gp : Option Int),
          ((calculateDimensions cw gp c exS).maxIndex < exS.currentIndex
            ∨ cw + effGap gp = exS.cardWidth + exS.gap) →
          (calculateDimensions cw gp c exS).translateX
            = -((calculateDimensions cw gp c exS).currentIndex : ℚ)
              * ((calculateDimensions cw gp c exS).cardWidth
                 + (calculateDimensions cw gp c exS).gap))) :=
  ⟨by norm_num [exS, calculateDimensions, initState, effGap, updatePosition, goToNext],
   translateX_inv_amended exS
     (by norm_num [exS, calculateDimensions, initState, effGap, updatePosition, goToNext])⟩

/-- Claim C7: the anchor click handler takes no custom action (no
preventDefault, no scroll, no pushState) when the href is the bare hash or
no element matches; otherwise it prevents default, scrolls to the target's
viewport-relative top plus scrollY minus the header height (0 when no
header is present), and pushes the hash. -/
theorem smoothScroll_spec (href : String) (h : href ≠ "#")
    (top scrollY hh : ℚ) (tt ho : Option ℚ) :
    smoothScrollClick "#" tt scrollY ho
        = { prevented := false, scrolledTo := none, pushedHash := none }
    ∧ smoothScrollClick href none scrollY ho
        = { prevented := false, scrolledTo := none, pushedHash := none }
    ∧ smoothScrollClick href (some top) scrollY (some hh)
        = { prevented := true, scrolledTo := some (top + scrollY - hh)
          , pushedHash := some href }
    ∧ smoothScrollClick href (some top) scrollY none
        = { prevented := true, scrolledTo := some (top + scrollY - 0)
          , pushedHash := some href } := by
  refine ⟨?_, ?_, ?_, ?_⟩ <;> simp [smoothScrollClick, h]

theorem smoothScroll_spec_witness :
    ("#team" : String) ≠ "#"
    ∧ (smoothScrollClick "#" (some 200) 300 (some 64)
          = { prevented := false, scrolledTo := none, pushedHash := none }
      ∧ smoothScrollClick "#team" none 300 (some 64)
          = { prevented := false, scrolledTo := none, pushedHash := none }
      ∧ smoothScrollClick "#team" (some 200) 300 (some 64)
          = { prevented := true, scrolledTo := some (200 + 300 - 64)
            , pushedHash := some "#team" }
      ∧ smoothScrollClick "#team" (some 200) 300 none
          = { prevented := true, scrolledTo := some (200 + 300 - 0)
            , pushedHash := some "#team" }) :=
  ⟨by decide, smoothScroll_spec "#team" (by decide) 200 300 64 (some 200) (some 64)⟩

/-- Claim C8: a drag whose net distance exceeds 10 pixels suppresses
exactly the next click on the track — the suppressor fires once and
removes itself, so a second click is unaffected; a drag of 10 pixels or
less suppresses no click. -/
theorem drag_click_suppression (s : SliderState) (h : s.isDragging = true)
    (h0 : s.clickSuppressors = 0) :
    (|s.currentX - s.startX| > 10 →
        (onTrackClick (onDragEnd s)).1 = true
        ∧ (onTrackClick (onTrackClick (onDragEnd s)).2).1 = false)
    ∧ (|s.currentX - s.startX| ≤ 10 → (onTrackClick (onDragEnd s)).1 = false) := by
  simp only [onDragEnd, h, if_true, updatePosition, onTrackClick]
  split_ifs <;> simp_all

theorem drag_click_suppression_witness :
    dragS.isDragging = true
    ∧ dragS.clickSuppressors = 0
    ∧ ((|dragS.currentX - dragS.startX| > 10 →
          (onTrackClick (onDragEnd dragS)).1 = true
          ∧ (onTrackClick (onTrackClick (onDragEnd dragS)).2).1 = false)
      ∧ (|dragS.currentX - dragS.startX| ≤ 10 →
          (onTrackClick (onDragEnd dragS)).1 = false)) :=
  ⟨rfl, rfl, drag_click_suppression dragS rfl rfl⟩

/-- Claim C9 counterexample: with the track present but zero cards, the
drag handlers are still attached, and a mousedown on the track changes the
slider state (isDragging) and the document (the is-dragging class),
contradicting the claim that every interaction is a silent no-op. -/
theorem noCards_drag_counterexample :
    (initState 0).isDragging = false
    ∧ (initState 0).trackDraggingClass = false
    ∧ (onDragStart 5 (initState 0)).isDragging = true
    ∧ (onDragStart 5 (initState 0)).trackDraggingClass = true := by
  refine ⟨rfl, rfl, rfl, rfl⟩

/-- Claim C9 as amended: with no track element nothing at all is
initialized; with a track but zero cards, dimension recalculation is a
total no-op and (the indices staying 0) button and keyboard navigation
never change state, but the drag handlers remain registered and a drag
start does change state. -/
theorem noCards_amended (s : SliderState) (h : s.numCards = 0)
    (hi : s.currentIndex = 0) (hm : s.maxIndex = 0) :
    (∀ (cw c : ℚ) (gp : Option Int), calculateDimensions cw gp c s = s)
    ∧ goToNext s = s
    ∧ goToPrev s = s
    ∧ ∀ x : ℚ, (onDragStart x s).isDragging = true := by
  refine ⟨?_, ?_, ?_, ?_⟩
  · intro cw c gp
    simp [calculateDimensions, h]
  · simp [goToNext, hi, hm]
  · simp [goToPrev, hi]
  · intro x
    rfl

theorem noCards_amended_witness :
    (initState 0).numCards = 0
    ∧ (initState 0).currentIndex = 0
    ∧ (initState 0).maxIndex = 0
    ∧ ((∀ (cw c : ℚ) (gp : Option Int),
          calculateDimensions cw gp c (initState 0) = initState 0)
      ∧ goToNext (initState 0) = initState 0
      ∧ goToPrev (initState 0) = initState 0
      ∧ ∀ x : ℚ, (onDragStart x (initState 0)).isDragging = true) :=
  ⟨rfl, rfl, rfl, noCards_amended (initState 0) rfl rfl rfl⟩

/-- Claim C10: a click on an open trigger whose data-modal-open value
matches no element id leaves the document unchanged — no modal activated,
overlay untouched, scroll lock untouched. -/
theorem modal_missing_id_noop (d : ModalDom) (i : String) (ct ov : Bool)
    (h : hasId d.modals i = false) :
    modalClick (some i) ct ov d = d := by
  simp [modalClick, h]

theorem modal_missing_id_noop_witness :
    hasId twoModalDom.modals "pricing" = false
    ∧ modalClick (some "pricing") false false twoModalDom = twoModalDom :=
  ⟨by decide, modal_missing_id_noop twoModalDom "pricing" false false (by decide)⟩
